import Mathlib

/-!
Verification of the ExtensionCrawler crawler core (archive.py, discover.py,
util.py) via a shallow embedding in Lean 4.

Conventions of the embedding:
* Pure computations of the Python source become Lean functions with the same
  names where Lean allows it.
* Network responses are passed in as explicit values; functions that perform
  IO are embedded as functions from their inputs (including the responses
  they would receive) to the sequence of observable effects they produce
  (requests issued, files written, state transformed).
* The `config` module of the repository is not part of the sources; the few
  constants taken from it (endpoint URLs) are abstract parameters or opaque
  string constants, as documented at each site.
-/

namespace ExtensionCrawler

/-! ## Request/result data model (archive.py, classes RequestResult / UpdateResult) -/

/-- Embedding of `RequestResult.__init__`: `http_status` is set only when a
response object was passed (`none` models the attribute being absent because
`response is None`), `exception` is the stored exception rendered as a
string. -/
structure RequestResult where
  http_status : Option Nat
  exception : Option String
deriving DecidableEq, Repr

/-- Source `RequestResult.is_ok`: no exception and HTTP status 200. -/
def RequestResult.is_ok (r : RequestResult) : Bool :=
  r.exception.isNone && (r.http_status == some 200)

/-- Source `RequestResult.not_found`: no exception and HTTP status 404. -/
def RequestResult.not_found (r : RequestResult) : Bool :=
  r.exception.isNone && (r.http_status == some 404)

/-- Source `RequestResult.has_exception`: the stored exception is not `None`. -/
def RequestResult.has_exception (r : RequestResult) : Bool :=
  r.exception.isSome

/-- Source `RequestResult.not_available`: no exception and HTTP status 503. -/
def RequestResult.not_available (r : RequestResult) : Bool :=
  r.exception.isNone && (r.http_status == some 503)

/-- Source `RequestResult.not_modified`: no exception and HTTP status 304. -/
def RequestResult.not_modified (r : RequestResult) : Bool :=
  r.exception.isNone && (r.http_status == some 304)

/-- Embedding of class `UpdateResult` (archive.py). `res_reviews` and
`res_support` are optional because they stay `None` for non-forum ids. -/
structure UpdateResult where
  id : String
  new : Bool
  exception : Option String
  res_overview : RequestResult
  res_crx : RequestResult
  res_reviews : Option RequestResult
  res_support : Option RequestResult
deriving DecidableEq, Repr

/-- Source `UpdateResult.not_modified`: the crx sub-result reported 304. -/
def UpdateResult.not_modified (u : UpdateResult) : Bool :=
  u.res_crx.not_modified

/-- Source `UpdateResult.corrupt_tar`: `self.exception is not None`. -/
def UpdateResult.corrupt_tar (u : UpdateResult) : Bool :=
  u.exception.isSome

/-- Source `UpdateResult.raised_google_ddos`:
`(res_reviews is not None and res_reviews.not_available()) or
 (res_support is not None and res_support.not_available())`. -/
def UpdateResult.raised_google_ddos (u : UpdateResult) : Bool :=
  (match u.res_reviews with
   | none => false
   | some q => q.not_available) ||
  (match u.res_support with
   | none => false
   | some q => q.not_available)

/-! ## Scheduler partition (archive.py, `update_extensions`)

The source computes
  `ext_ids = list(set(ext_ids) - set(forums_ext_ids))`
  `forums_ext_ids = list(set(forums_ext_ids))`
then maps `update_extension ... True` over all of `forums_ext_ids`
(sequentially) and `update_extension ... False` over
`parallel_ids = list(set(ext_ids) - set(forums_ext_ids))` (in a pool).
Python sets are embedded as `Finset String` (the `list(set(..))` round trip
deduplicates and processes every member exactly once); the first component
is the sequential (forum) group, the second the parallel group. -/
def update_extensions (forums_ext_ids ext_ids : List String) :
    Finset String × Finset String :=
  let ext_ids2 := ext_ids.toFinset \ forums_ext_ids.toFinset
  let forums2 := forums_ext_ids.toFinset
  let parallel_ids := ext_ids2 \ forums2
  (forums2, parallel_ids)

/-! ## Reviews/support fetches (archive.py, `update_reviews` / `update_support`)

Each function issues two POSTs, each preceded by a `google_dos_protection()`
pacing delay, and stores the body of each under a fixed artifact name.  The
embedding records the sequence of POSTs issued: the payload builders
`const_review_payload(ext_id, offset, count)` /
`const_support_payload(ext_id, offset, count)` live in the missing `config`
module, so a POST is recorded as the tuple of arguments handed to them,
together with the artifact name the response text is stored under. -/
structure PostRequest where
  endpoint : String
  ext_id : String
  offset : String
  count : String
  store_fname : String
deriving DecidableEq, Repr

/-- Source `update_reviews` (archive.py lines 263-287): the two review POSTs in
order.  Both calls in the source pass offset `"0"`:
`const_review_payload(ext_id, "0", "100")` twice, stored as
`reviews000-099.text` and `reviews100-199.text`. -/
def update_reviews (ext_id : String) : List PostRequest :=
  [ { endpoint := "review", ext_id := ext_id, offset := "0", count := "100",
      store_fname := "reviews000-099.text" },
    { endpoint := "review", ext_id := ext_id, offset := "0", count := "100",
      store_fname := "reviews100-199.text" } ]

/-- Source `update_support` (archive.py lines 290-314): the two support POSTs in
order, offsets `"0"` then `"100"`, page size `"100"`. -/
def update_support (ext_id : String) : List PostRequest :=
  [ { endpoint := "support", ext_id := ext_id, offset := "0", count := "100",
      store_fname := "support000-099.text" },
    { endpoint := "support", ext_id := ext_id, offset := "100", count := "100",
      store_fname := "support100-199.text" } ]

/-! ## Package fetch (archive.py, `last_crx` / `validate_crx_response` / `update_crx`)

Tar-archive contents are embedded as the list of file paths inside the tar
(`/`-separated, as produced by `archive.walk.files`).  The composition
`httpdate(dateutil.parser.parse(_))` that renders a directory name as an
HTTP date is abstracted as a parameter `parse_http`. -/

/-- Lexicographic comparison of strings by code points, as Python's `<=` on
`str` and `sorted()` use it, expressed on the underlying character lists
(identical to `String`'s own order, but kernel-computable). -/
def str_le (a b : String) : Prop := a.toList ≤ b.toList

instance : DecidableRel str_le :=
  fun a b => inferInstanceAs (Decidable (a.toList ≤ b.toList))

instance : IsTotal String str_le := ⟨fun a b => le_total a.toList b.toList⟩

instance : IsTrans String str_le := ⟨fun _ _ _ => le_trans⟩

/-- Splitting a character list at `/`, the separator semantics of
`os.path.dirname` / `os.path.split` on POSIX paths. -/
def splitOnSlash : List Char → List (List Char)
  | [] => [[]]
  | c :: rest =>
      match splitOnSlash rest with
      | [] => [[]]
      | h :: t => if c = '/' then [] :: h :: t else (c :: h) :: t

/-- Source `last_modified_utc_date(path)` (archive.py lines 162-165):
`os.path.split(os.path.dirname(path))[1]`, i.e. the name of the directory
directly containing `path`; `""` for the empty path or a path with no
enclosing directory. -/
def last_modified_utc_date (path : String) : String :=
  if path = "" then ""
  else (((splitOnSlash path.toList).dropLast.getLast?).map
    (fun l => String.mk l)).getD ""

/-- The `*.crx` glob of `archive.walk.files(filter=['*.crx'])`: the file
name ends in `.crx`. -/
def is_crx_entry (f : String) : Bool := ".crx".toList.isSuffixOf f.toList

/-- Source `last_crx(archivedir, extid)` (archive.py lines 174-183): sort all
`*.crx` entries of the id's tar and take the last, `""` when there are none
(a missing tar is the empty file list). -/
def last_crx (files : List String) : String :=
  let old_crxs := (files.filter is_crx_entry).insertionSort str_le
  (old_crxs.getLast?).getD ""

/-- The package response, as far as `update_crx` inspects it:
`url_basename` is `os.path.basename(res.url)` after redirects,
`content_type` is the `Content-Type` header when present, `body` the
response content (also what `res.iter_lines()` joins to). -/
structure CrxResponse where
  status : Nat
  url_basename : String
  content_type : Option String
  body : String
deriving DecidableEq, Repr

/-- Class `CrawlError` (archive.py lines 43-47); `pagecontent` defaults to
`""` when the raise site passes none. -/
structure CrawlError where
  extid : String
  message : String
  pagecontent : String
deriving DecidableEq, Repr

/-- The regex `^extension[_0-9]+\.crx$`: literal prefix `extension`, then a
nonempty run of `_`/digits, then the literal suffix `.crx`. -/
def regex_extfilename (s : String) : Bool :=
  let l := s.toList
  decide (9 + 4 < l.length) &&
  (l.take 9 == "extension".toList) &&
  (l.drop (l.length - 4) == ".crx".toList) &&
  ((l.drop 9).take (l.length - 13)).all (fun c => c == '_' || c.isDigit)

/-- An exception escaping `validate_crx_response`: the deliberately raised
`CrawlError`, or the `TypeError` that `'\n'.join(res.iter_lines())` raises
in the missing-`Content-Type` branch — `iter_lines()` yields `bytes`, and
joining them with a `str` separator fails as soon as there is at least one
line (only that branch joins the raw lines; the wrong-`Content-Type`
branch decodes them first). -/
inductive PyExc
  | crawlError (e : CrawlError)
  | typeErr (msg : String)
deriving DecidableEq, Repr

/-- The text `str(e)` stored for an exception in the `.exception` sidecar
and on the request result. -/
def PyExc.text : PyExc → String
  | PyExc.crawlError e => e.message
  | PyExc.typeErr m => m

/-- Source `validate_crx_response(res, extid, extfilename)` (archive.py lines
201-215).  Raised exceptions are returned as `some`; the three checks run
in source order.  Missing `Content-Type`: the raise argument
`'\n'.join(res.iter_lines())` joins `bytes` lines with a `str` separator,
so with an empty body (no lines) the join yields `""` and the `CrawlError`
is raised with an empty `pagecontent`, while with a nonempty body the join
itself raises `TypeError` — the body is never attached.  Wrong
`Content-Type`: the lines are decoded first and the `CrawlError` carries
the body.  File name not matching the regex: the raise passes no
`pagecontent` (defaults to `""`). -/
def validate_crx_response (res : CrxResponse) (extid extfilename : String) :
    Option PyExc :=
  match res.content_type with
  | none =>
      if res.body = "" then
        some (PyExc.crawlError ⟨extid, "Did not find Content-Type header.", ""⟩)
      else
        some (PyExc.typeErr
          "sequence item 0: expected str instance, bytes found")
  | some ct =>
      if ct ≠ "application/x-chrome-extension" then
        some (PyExc.crawlError ⟨extid,
          "Expected Content-Type header to be application/x-chrome-extension, but got "
            ++ ct ++ ".",
          res.body⟩)
      else if ¬ regex_extfilename extfilename then
        some (PyExc.crawlError ⟨extid,
          extfilename ++ " is not a valid extension file name, skipping...",
          ""⟩)
      else
        none

/-- The contents written by `update_crx` into the run directory, tagged by
kind; metadata contents beyond their kind are not modelled. -/
inductive FileContent
  | headers
  | status (code : Nat)
  | url
  | link (target : String)
  | payload (body : String)
  | exceptionText (msg : String)
deriving DecidableEq, Repr

/-- Source `store_request_metadata(tar, date, fname, request)` (archive.py lines
141-144): the three diagnostic sidecars. -/
def store_request_metadata (fname : String) (res : CrxResponse) :
    List (String × FileContent) :=
  [(fname ++ ".headers", FileContent.headers),
   (fname ++ ".status", FileContent.status res.status),
   (fname ++ ".url", FileContent.url)]

/-- Source `extfilename` as resolved in `update_crx`: the basename of the final
URL, replaced by `default.crx` when it contains `&`. -/
def resolved_extfilename (res : CrxResponse) : String :=
  if res.url_basename.toList.contains '&' then "default.crx"
  else res.url_basename

/-- The observable outcome of one `update_crx` call: the
`If-Modified-Since` header sent (if any), the files written into the run
directory, and the returned `RequestResult`. -/
structure CrxUpdate where
  if_modified_since : Option String
  writes : List (String × FileContent)
  result : RequestResult
deriving DecidableEq, Repr

/-- Source `update_crx(archive_dir, verbose, ext_id, date)` (archive.py lines
218-260), given the files of the id's tar and the response the server
returns.  `parse_http` abstracts `httpdate(dateutil.parser.parse(_))`.
On 304 a `.link` sidecar holding
`os.path.join("..", last_modified_utc_date(last_crx_file), extfilename)`
plus a newline is written; on 200 the body is streamed to `extfilename`
only after `validate_crx_response` passes, any exception it raises being
caught and stored as an `.exception` sidecar instead. -/
def update_crx (files : List String) (parse_http : String → String)
    (ext_id date : String) (res : CrxResponse) : CrxUpdate :=
  let last_crx_file := last_crx files
  let headers : Option String :=
    if last_crx_file ≠ "" then
      some (parse_http (last_modified_utc_date last_crx_file))
    else none
  let extfilename := resolved_extfilename res
  let meta := store_request_metadata extfilename res
  if res.status = 304 then
    { if_modified_since := headers,
      writes := meta ++ [(extfilename ++ ".link",
        FileContent.link ("../" ++ last_modified_utc_date last_crx_file ++
          "/" ++ extfilename ++ "\n"))],
      result := { http_status := some res.status, exception := none } }
  else if res.status = 200 then
    match validate_crx_response res ext_id extfilename with
    | some exc =>
        { if_modified_since := headers,
          writes := meta ++ [(extfilename ++ ".exception",
            FileContent.exceptionText exc.text)],
          result := { http_status := some res.status,
                      exception := some exc.text } }
    | none =>
        { if_modified_since := headers,
          writes := meta ++ [(extfilename, FileContent.payload res.body)],
          result := { http_status := some res.status, exception := none } }
  else
    { if_modified_since := headers,
      writes := meta,
      result := { http_status := some res.status, exception := none } }

/-! ## Pacing delay (util.py, `google_dos_protection`)

`def google_dos_protection(maxrange=2): sleep(randrange(1, maxrange) * .5)`.
`randrange(1, maxrange)` draws uniformly from the integers of `[1, maxrange)`;
the slept duration is the draw times 0.5 seconds.  The embedding returns the
set of possible draws (in units of 0.5 s). -/
def google_dos_protection (maxrange : Nat := 2) : Finset Nat :=
  Finset.Ico 1 maxrange

/-! ## Archive lifecycle (archive.py, `update_extension`)

`update_extension` manipulates, per extension id, the tar file
`<archivedir>/<shard>/<id>.tar`, its backup `<id>.bak.tar`, quarantined
copies `<id>.corrupt.<date>.tar`, and the scratch directory `<id>/` holding
one subdirectory per snapshot.  A tar file is embedded as the list of
snapshot (run) directories it contains, or as `corrupt` when
`tarfile.open(...).extractall` would raise on it.  The filesystem
operations that can fail for external reasons (`shutil.move`, repacking,
`shutil.rmtree`) are given Boolean outcomes through `ArchiveEnv`;
extraction fails exactly on a corrupt tar. -/

/-- Contents of one tar file: a valid archive with its list of snapshot
directories, or a corrupt file. -/
inductive TarContent
  | valid (snaps : List String)
  | corrupt
deriving DecidableEq, Repr

/-- The per-id slice of the filesystem that `update_extension` touches. -/
structure ArchiveFS where
  tar : Option TarContent
  bak : Option TarContent
  corrupt_saved : List (String × TarContent)
  scratch : List String
deriving DecidableEq, Repr

/-- Success/failure of the fallible filesystem operations of one
`update_extension` call. -/
structure ArchiveEnv where
  move_corrupt_ok : Bool
  rename_bak_ok : Bool
  create_tar_ok : Bool
  rm_scratch_ok : Bool
deriving DecidableEq, Repr

/-- Source `update_extension(archivedir, verbose, forums, ext_id)` (archive.py
lines 317-414).  Phases, in source order:
1. `is_new` iff no tar exists.  If a tar exists: clear the scratch
   directory and extract the tar into it; on failure record the exception
   in `tar_exception`, move the tar to `<id>.corrupt.<date>.tar` and write
   an exception file into `scratch/<date>` (both skipped silently when the
   move fails).
2. Fetch overview/crx (and reviews/support when `forums`): every fetch
   writes at least one file via `write_text`, which creates the snapshot
   directory `scratch/<date>`.  The sub-results are taken as inputs here.
   (The stale-backup block guards on `tardir + "bak.tar"` — note the
   missing dot in the source — a name no code path ever creates, so it is
   a no-op.)
3. Move the current tar (if still present) to `<id>.bak.tar`; on failure
   record the exception in `tar_exception`.
4. Repack: create the tar afresh from the scratch directory; on failure
   record the exception (the target file is left behind truncated, i.e.
   corrupt).
5. Remove the scratch directory; on failure record the exception.
Each later `tar_exception = e` assignment overwrites earlier ones; the
final value lands in `UpdateResult.exception`.  Nothing is raised to the
caller: every phase sits in a `try`/`except`. -/
def update_extension (env : ArchiveEnv) (fs : ArchiveFS)
    (date ext_id : String) (res_overview res_crx : RequestResult)
    (res_reviews res_support : Option RequestResult) :
    UpdateResult × ArchiveFS :=
  let is_new := fs.tar.isNone
  -- phase 1: extraction (and quarantine of a corrupt tar)
  let step1 : ArchiveFS × Option String :=
    match fs.tar with
    | none => (fs, none)
    | some (TarContent.valid snaps) => ({ fs with scratch := snaps }, none)
    | some TarContent.corrupt =>
        if env.move_corrupt_ok then
          ({ fs with
              scratch := [date]
              tar := none
              corrupt_saved :=
                (date, TarContent.corrupt) :: fs.corrupt_saved },
           some "tar extract")
        else
          ({ fs with scratch := [] }, some "tar extract")
  -- phase 2: the fetches populate scratch/<date>
  let fs2 := step1.1
  let fs3 := { fs2 with scratch :=
    if date ∈ fs2.scratch then fs2.scratch else fs2.scratch ++ [date] }
  -- phase 3: rename the current tar to <id>.bak.tar
  let step2 : ArchiveFS × Option String :=
    match fs3.tar with
    | none => (fs3, none)
    | some t =>
        if env.rename_bak_ok then
          ({ fs3 with tar := none, bak := some t }, none)
        else (fs3, some "tar rename")
  -- phase 4: repack the scratch directory into a fresh tar
  let step3 : ArchiveFS × Option String :=
    if env.create_tar_ok then
      ({ step2.1 with tar := some (TarContent.valid step2.1.scratch) }, none)
    else
      ({ step2.1 with tar := some TarContent.corrupt }, some "tar create")
  -- phase 5: remove the scratch directory
  let step4 : ArchiveFS × Option String :=
    if env.rm_scratch_ok then ({ step3.1 with scratch := [] }, none)
    else (step3.1, some "dir remove")
  let tar_exception := step4.2 <|> step3.2 <|> step2.2 <|> step1.2
  ({ id := ext_id, new := is_new, exception := tar_exception,
     res_overview := res_overview, res_crx := res_crx,
     res_reviews := res_reviews, res_support := res_support }, step4.1)

/-- Iterated updates of one id: one `update_extension` per run date. -/
def run_updates (env : ArchiveEnv) (ext_id : String)
    (res_overview res_crx : RequestResult)
    (res_reviews res_support : Option RequestResult)
    (fs : ArchiveFS) (dates : List String) : ArchiveFS :=
  dates.foldl
    (fun s d =>
      (update_extension env s d ext_id res_overview res_crx res_reviews
        res_support).2)
    fs

/-! Specification-side predicates for the `corrupt_tar` claim, following
the claim's wording: one predicate per archive-lifecycle step of a single
update that records an exception. -/

/-- Spec-side: tar extraction raises, i.e. the existing tar is corrupt. -/
def extract_step_fails (fs : ArchiveFS) : Prop :=
  fs.tar = some TarContent.corrupt

/-- The tar file still exists when the backup rename runs: it existed
initially and was not moved away by the quarantine. -/
def tar_present_before_rename (env : ArchiveEnv) (fs : ArchiveFS) : Prop :=
  match fs.tar with
  | none => False
  | some TarContent.corrupt => env.move_corrupt_ok = false
  | some (TarContent.valid _) => True

/-- Spec-side: the backup rename runs and fails. -/
def rename_step_fails (env : ArchiveEnv) (fs : ArchiveFS) : Prop :=
  tar_present_before_rename env fs ∧ env.rename_bak_ok = false

/-- Spec-side: the repack fails. -/
def repack_step_fails (env : ArchiveEnv) : Prop :=
  env.create_tar_ok = false

/-- Spec-side: the scratch-directory removal fails. -/
def cleanup_step_fails (env : ArchiveEnv) : Prop :=
  env.rm_scratch_ok = false

/-! ## Id discovery (discover.py, `crawl_nearly_all_of_ext_ids`)

The sitemap base URL `const_sitemap_url()` lives in the missing `config`
module and is a parameter here.  The composition of `requests.get` with
`get_inner_elems` (XML parsing of the `loc` elements) is abstracted into
the two fetch functions; raising `requests` exceptions is modelled by
`Except.error`, and the uncaught `AttributeError` of
`re.search(...).group(0)` on a URL without a match is modelled by `none`
in the result list. -/

/-- A character of the class `[a-z]`. -/
def is_lower_alpha (c : Char) : Bool := 'a' ≤ c && c ≤ 'z'

/-- The leftmost match of the regex `[a-z]{32}`: scanning start positions
left to right, the first window of 32 consecutive lowercase letters. -/
def find_lower32 : List Char → Option (List Char)
  | [] => none
  | c :: rest =>
      if (((c :: rest).take 32).length == 32) &&
          ((c :: rest).take 32).all is_lower_alpha then
        some ((c :: rest).take 32)
      else find_lower32 rest

/-- Source `is_generic_url(url)` (discover.py lines 32-34): the regex
`^<sitemap_url>\?shard=\d+&numshards=\d+$`, i.e. the literal prefix
`<sitemap_url>?shard=`, one or more digits, the literal `&numshards=`,
one or more digits, end of string. -/
def is_generic_url (sitemap_url : String) (u : String) : Bool :=
  let base := (sitemap_url ++ "?shard=").toList
  let l := u.toList
  (l.take base.length == base) &&
  (let rest := l.drop base.length
   let d1 := rest.takeWhile Char.isDigit
   let rest2 := rest.dropWhile Char.isDigit
   (!d1.isEmpty) &&
   (rest2.take 11 == "&numshards=".toList) &&
   (let d2 := rest2.drop 11
    (!d2.isEmpty) && d2.all Char.isDigit))

/-- Source `list(map(lambda u: requests.get(u).text, shard_urls))`: fetch each
shard left to right; the first raised exception propagates. -/
def mapExcept (f : String → Except String (List String)) :
    List String → Except String (List (List String))
  | [] => Except.ok []
  | u :: us => do
      let y ← f u
      let ys ← mapExcept f us
      return y :: ys

/-- Source `crawl_nearly_all_of_ext_ids()` (discover.py lines 27-45): fetch the
sitemap index, keep the `loc` URLs matching `is_generic_url`, fetch each
such shard, concatenate all listing URLs
(`reduce(lambda x, y: x + y, ..., [])`), and take from each the first
32-lowercase-letter token.  Network failures propagate (no `try` in the
source). -/
def crawl_nearly_all_of_ext_ids (sitemap_url : String)
    (fetch_index : Except String (List String))
    (fetch_shard : String → Except String (List String)) :
    Except String (List (Option String)) := do
  let shard_elems ← fetch_index
  let shard_urls := shard_elems.filter (fun u => is_generic_url sitemap_url u)
  let shards ← mapExcept fetch_shard shard_urls
  let overview_urls := shards.foldl (fun x y => x ++ y) []
  return overview_urls.map
    (fun url => (find_lower32 url.toList).map (fun l => String.mk l))

end ExtensionCrawler

namespace ExtensionCrawler

/-! ## Theorems -/

/-- C10: `raised_google_ddos` is true iff the reviews fetch or the support
fetch returned HTTP 503 without an exception, and it does not depend on the
overview or crx sub-results at all (so a 503 there never makes it true). -/
theorem raised_google_ddos_characterisation (u : UpdateResult)
    (o c : RequestResult) :
    (u.raised_google_ddos = true ↔
      ((∃ q, u.res_reviews = some q ∧ q.exception = none ∧
          q.http_status = some 503) ∨
       (∃ q, u.res_support = some q ∧ q.exception = none ∧
          q.http_status = some 503)))
    ∧ UpdateResult.raised_google_ddos
        { u with res_overview := o, res_crx := c } = u.raised_google_ddos := by
  constructor
  · rcases u with ⟨id, n, e, ro, rc, rr, rs⟩
    rcases rr with _ | q <;> rcases rs with _ | q2 <;>
      simp [UpdateResult.raised_google_ddos, RequestResult.not_available,
        Option.isNone_iff_eq_none]
  · rfl

/-- In a list sorted by `str_le`, every element is `str_le` the last one. -/
theorem sorted_str_le_getLast {l : List String} (hs : l.Sorted str_le) :
    ∀ x ∈ l, str_le x ((l.getLast?).getD "") := by
  induction l with
  | nil => intro x hx; cases hx
  | cons a t ih =>
    rcases List.sorted_cons.mp hs with ⟨ha, ht⟩
    intro x hx
    cases t with
    | nil =>
      have hx2 := List.mem_singleton.mp hx
      subst hx2
      simp [str_le]
    | cons b t2 =>
      have hgl : (((a :: b :: t2).getLast?).getD "") =
          (((b :: t2).getLast?).getD "") := by
        simp [List.getLast?_cons_cons]
      rcases List.mem_cons.mp hx with rfl | hx2
      · have hab : str_le x b := ha b (by simp)
        have hb := ih ht b (by simp)
        rw [hgl]
        exact le_trans hab hb
      · rw [hgl]
        exact ih ht x hx2

/-- Source `last_crx` picks a member of the `.crx` entries that every `.crx` entry
is lexicographically at most. -/
theorem last_crx_mem_max (files : List String)
    (h : files.filter is_crx_entry ≠ []) :
    last_crx files ∈ files.filter is_crx_entry ∧
    ∀ x ∈ files.filter is_crx_entry, str_le x (last_crx files) := by
  have hperm := List.perm_insertionSort str_le (files.filter is_crx_entry)
  have hsorted := List.sorted_insertionSort str_le (files.filter is_crx_entry)
  have hne : (files.filter is_crx_entry).insertionSort str_le ≠ [] := by
    intro h0
    exact h (List.Perm.eq_nil (h0 ▸ hperm.symm))
  have hlast_eq : last_crx files =
      ((files.filter is_crx_entry).insertionSort str_le).getLast hne := by
    simp [last_crx, List.getLast?_eq_getLast _ hne]
  constructor
  · rw [hlast_eq]
    exact hperm.mem_iff.mp (List.getLast_mem hne)
  · intro x hx
    have hx2 : x ∈ (files.filter is_crx_entry).insertionSort str_le :=
      hperm.mem_iff.mpr hx
    have hle := sorted_str_le_getLast hsorted x hx2
    simpa [last_crx] using hle

/-- The `If-Modified-Since` header sent by `update_crx` is independent of
the response branch taken. -/
theorem update_crx_header (files : List String) (parse_http : String → String)
    (ext_id date : String) (res : CrxResponse) :
    (update_crx files parse_http ext_id date res).if_modified_since =
      (if last_crx files ≠ "" then
        some (parse_http (last_modified_utc_date (last_crx files)))
      else none) := by
  by_cases h304 : res.status = 304
  · simp [update_crx, h304]
  · by_cases h200 : res.status = 200
    · cases hv : validate_crx_response res ext_id (resolved_extfilename res) with
      | none => simp [update_crx, h304, h200, hv]
      | some err => simp [update_crx, h304, h200, hv]
    · simp [update_crx, h304, h200]

/-- C3: when the archive already holds at least one `.crx` entry, the
package fetch carries an `If-Modified-Since` header derived from the
directory (CrawlRun) of the lexicographically last `.crx` entry, and on a
304 answer no package payload is written — only a `.link` sidecar holding
the relative path `../<prior run>/<resolved name>` — and the result is
`not_modified`. -/
theorem update_crx_conditional_fetch (files : List String)
    (parse_http : String → String) (ext_id date : String) (res : CrxResponse)
    (h : files.filter is_crx_entry ≠ []) :
    (update_crx files parse_http ext_id date res).if_modified_since =
      some (parse_http (last_modified_utc_date (last_crx files))) ∧
    last_crx files ∈ files.filter is_crx_entry ∧
    (∀ x ∈ files.filter is_crx_entry, str_le x (last_crx files)) ∧
    (res.status = 304 →
      (∀ p b, (p, FileContent.payload b) ∉
          (update_crx files parse_http ext_id date res).writes) ∧
      (resolved_extfilename res ++ ".link",
        FileContent.link ("../" ++ last_modified_utc_date (last_crx files) ++
          "/" ++ resolved_extfilename res ++ "\n")) ∈
        (update_crx files parse_http ext_id date res).writes ∧
      (update_crx files parse_http ext_id date res).result.not_modified
        = true) := by
  obtain ⟨hmem, hmax⟩ := last_crx_mem_max files h
  have hcrx : is_crx_entry (last_crx files) = true := (List.mem_filter.mp hmem).2
  have hne : last_crx files ≠ "" := by
    intro h0
    rw [h0] at hcrx
    exact absurd hcrx (by decide)
  refine ⟨?_, hmem, hmax, ?_⟩
  · rw [update_crx_header]
    simp [hne]
  · intro h304
    refine ⟨?_, ?_, ?_⟩
    · intro p b hmem2
      simp [update_crx, h304, store_request_metadata] at hmem2
    · simp [update_crx, h304, store_request_metadata]
    · simp [update_crx, h304, RequestResult.not_modified]

/-- Witness for C3: one prior run `2021-01-01` and a 304 answer. -/
theorem update_crx_conditional_fetch_witness :
    (update_crx ["ext/2021-01-01/extension_1.crx"] (fun s => s) "id" "d"
        ⟨304, "extension_1.crx", none, ""⟩).if_modified_since =
      some "2021-01-01" := by
  have h := (update_crx_conditional_fetch ["ext/2021-01-01/extension_1.crx"]
    (fun s => s) "id" "d" ⟨304, "extension_1.crx", none, ""⟩ (by decide)).1
  rw [h]
  decide

/-- C5 counterexample: a 200 response with the correct content type but a
resolved file name failing the `extension*.crx` pattern raises a
`CrawlError` whose `pagecontent` is empty — it does not carry the response
body (`"BODY"`), refuting the claim that every validation error carries
the body. -/
theorem validate_crx_no_body_on_filename_mismatch :
    validate_crx_response
        ⟨200, "default.crx", some "application/x-chrome-extension", "BODY"⟩
        "aaa" "default.crx" =
      some (PyExc.crawlError ⟨"aaa",
        "default.crx is not a valid extension file name, skipping...",
        ""⟩) ∧
    ("" : String) ≠ "BODY" := by
  exact ⟨by decide, by decide⟩

/-- C5 (amended): on a 200 package response failing validation (missing
`Content-Type`, wrong `Content-Type`, or resolved file name not matching
`extension[_0-9]+\.crx`), an exception is raised and caught, the payload
is never written, and exactly the diagnostic sidecars (headers, status,
url, exception) are persisted.  The exception carries the response body
only in the wrong-`Content-Type` case; the file-name case raises a
`CrawlError` with empty `pagecontent`, and the missing-`Content-Type`
case raises a `CrawlError` with empty `pagecontent` when the body is
empty but a `TypeError` (from joining `bytes` lines with a `str`
separator) for any nonempty body — so it never carries the body
either. -/
theorem update_crx_validation_rejection (files : List String)
    (parse_http : String → String) (ext_id date : String) (res : CrxResponse)
    (exc : PyExc)
    (h200 : res.status = 200)
    (hval : validate_crx_response res ext_id (resolved_extfilename res)
      = some exc) :
    (update_crx files parse_http ext_id date res).writes =
      store_request_metadata (resolved_extfilename res) res ++
        [(resolved_extfilename res ++ ".exception",
          FileContent.exceptionText exc.text)] ∧
    (∀ p b, (p, FileContent.payload b) ∉
        (update_crx files parse_http ext_id date res).writes) ∧
    (update_crx files parse_http ext_id date res).result.exception =
      some exc.text ∧
    (res.content_type = none → res.body = "" →
      exc = PyExc.crawlError
        ⟨ext_id, "Did not find Content-Type header.", ""⟩) ∧
    (res.content_type = none → res.body ≠ "" →
      exc = PyExc.typeErr
        "sequence item 0: expected str instance, bytes found") ∧
    (∀ ct, res.content_type = some ct →
      ct ≠ "application/x-chrome-extension" →
      exc = PyExc.crawlError ⟨ext_id,
        "Expected Content-Type header to be application/x-chrome-extension, but got "
          ++ ct ++ ".",
        res.body⟩) ∧
    (res.content_type = some "application/x-chrome-extension" →
      exc = PyExc.crawlError ⟨ext_id,
        resolved_extfilename res ++
          " is not a valid extension file name, skipping...",
        ""⟩) ∧
    (validate_crx_response res ext_id (resolved_extfilename res) = none ↔
      res.content_type = some "application/x-chrome-extension" ∧
      regex_extfilename (resolved_extfilename res) = true) := by
  have h304 : ¬ res.status = 304 := by rw [h200]; decide
  refine ⟨?_, ?_, ?_, ?_, ?_, ?_, ?_, ?_⟩
  · simp [update_crx, h200, h304, hval]
  · intro p b hmem
    simp [update_crx, h200, h304, hval, store_request_metadata] at hmem
  · simp [update_crx, h200, h304, hval]
  · intro hct hbody
    simp [validate_crx_response, hct, hbody] at hval
    rw [← hval]
  · intro hct hbody
    simp [validate_crx_response, hct, hbody] at hval
    rw [← hval]
  · intro ct hct hne2
    simp [validate_crx_response, hct, hne2] at hval
    rw [← hval]
  · intro hct
    simp [validate_crx_response, hct] at hval
    cases hre : regex_extfilename (resolved_extfilename res) with
    | true => simp [hre] at hval
    | false =>
        simp [hre] at hval
        rw [← hval]
  · constructor
    · intro h0
      simp [h0] at hval
    · intro hok
      simp [validate_crx_response, hok.1, hok.2]

/-- Witness for C5 (amended): missing `Content-Type` with a nonempty body
on a 200 response — the recorded exception is the bytes-join
`TypeError`. -/
theorem update_crx_validation_rejection_witness :
    (update_crx [] (fun s => s) "id" "d"
        ⟨200, "x.crx", none, "B"⟩).result.exception =
      some "sequence item 0: expected str instance, bytes found" :=
  (update_crx_validation_rejection [] (fun s => s) "id" "d"
      ⟨200, "x.crx", none, "B"⟩
      (PyExc.typeErr "sequence item 0: expected str instance, bytes found")
      rfl (by decide)).2.2.1

/-- C1 counterexample: with `forumIds = ["x"]` and `fullIds = []` the
sequential group is `{"x"}`, not `forumIds ∩ fullIds = ∅`, and the id `"x"`,
which is not in `fullIds`, is nevertheless processed (it lies in the union of
the two groups).  So `update_extensions` does not compute
`forum = forumIds ∩ fullIds`. -/
theorem update_extensions_claim_counterexample :
    (update_extensions ["x"] []).1 ≠ ["x"].toFinset ∩ ([] : List String).toFinset ∧
    "x" ∈ (update_extensions ["x"] []).1 ∪ (update_extensions ["x"] []).2 ∧
    "x" ∉ ([] : List String) := by
  refine ⟨?_, ?_, ?_⟩ <;> simp [update_extensions]

/-- C1 (amended): the sequential group is all of `forumIds` (deduplicated,
including ids not in `fullIds`), the parallel group is `fullIds − forumIds`
(deduplicated), the groups are disjoint, and every id of `fullIds` lands in
exactly one of the two groups (hence is processed exactly once). -/
theorem update_extensions_partition_spec (forums_ext_ids ext_ids : List String) :
    (update_extensions forums_ext_ids ext_ids).1 = forums_ext_ids.toFinset ∧
    (update_extensions forums_ext_ids ext_ids).2 =
      ext_ids.toFinset \ forums_ext_ids.toFinset ∧
    Disjoint (update_extensions forums_ext_ids ext_ids).1
      (update_extensions forums_ext_ids ext_ids).2 ∧
    (∀ x, x ∈ ext_ids →
      x ∈ (update_extensions forums_ext_ids ext_ids).1 ∪
          (update_extensions forums_ext_ids ext_ids).2) := by
  refine ⟨rfl, ?_, ?_, ?_⟩
  · show (ext_ids.toFinset \ forums_ext_ids.toFinset) \ forums_ext_ids.toFinset
        = ext_ids.toFinset \ forums_ext_ids.toFinset
    exact sdiff_idem
  · exact Finset.disjoint_sdiff.mono_right sdiff_le
  · intro x hx
    by_cases hf : x ∈ forums_ext_ids.toFinset <;>
      simp [update_extensions, Finset.mem_union, Finset.mem_sdiff, hf, hx]

/-- Witness for C1 (amended): `"b" ∈ fullIds` is processed. -/
theorem update_extensions_partition_spec_witness :
    "b" ∈ (update_extensions ["a"] ["a", "b"]).1 ∪
          (update_extensions ["a"] ["a", "b"]).2 :=
  (update_extensions_partition_spec ["a"] ["a", "b"]).2.2.2 "b" (by simp)

/-- C2: the two review POSTs both carry offset `"0"` (while the second is
stored under the name `reviews100-199.text`), whereas the two support POSTs
carry offsets `"0"` and `"100"`.  This exhibits the divergence of
`update_reviews` from the claimed offsets 0 and 100. -/
theorem update_reviews_second_offset_is_zero (ext_id : String) :
    (update_reviews ext_id).map PostRequest.offset = ["0", "0"] ∧
    (update_reviews ext_id).map PostRequest.store_fname =
      ["reviews000-099.text", "reviews100-199.text"] ∧
    (update_support ext_id).map PostRequest.offset = ["0", "100"] ∧
    (update_support ext_id).map PostRequest.store_fname =
      ["support000-099.text", "support100-199.text"] :=
  ⟨rfl, rfl, rfl, rfl⟩

/-- C6: with the default `maxrange = 2` (every call site calls
`google_dos_protection()` with no argument), the set of possible
`randrange(1, 2)` draws is exactly `{1}`: the pacing delay is always exactly
0.5 s and is never drawn from a non-degenerate interval up to 1.0 s. -/
theorem google_dos_protection_default_constant :
    google_dos_protection = {1} := by
  decide

/-- One update step on a valid current tar, all filesystem operations
succeeding: the old snapshots are re-extracted, the new run directory is
added, and the repacked tar holds old snapshots plus the new one. -/
theorem update_extension_valid_step (fs : ArchiveFS) (snaps : List String)
    (date ext_id : String) (ro rc : RequestResult)
    (rr rs : Option RequestResult)
    (ht : fs.tar = some (TarContent.valid snaps)) (hd : date ∉ snaps) :
    (update_extension ⟨true, true, true, true⟩ fs date ext_id ro rc rr
      rs).2 =
      { tar := some (TarContent.valid (snaps ++ [date]))
        bak := some (TarContent.valid snaps)
        corrupt_saved := fs.corrupt_saved
        scratch := [] } := by
  simp [update_extension, ht, hd]

/-- One update step with no current tar and an empty scratch directory:
the repacked tar holds exactly the new run directory. -/
theorem update_extension_new_step (fs : ArchiveFS) (date ext_id : String)
    (ro rc : RequestResult) (rr rs : Option RequestResult)
    (ht : fs.tar = none) (hs : fs.scratch = []) :
    (update_extension ⟨true, true, true, true⟩ fs date ext_id ro rc rr
      rs).2 =
      { tar := some (TarContent.valid [date])
        bak := fs.bak
        corrupt_saved := fs.corrupt_saved
        scratch := [] } := by
  simp [update_extension, ht, hs]

/-- Iterating updates from a valid tar over fresh dates appends them all. -/
theorem run_updates_valid (ext_id : String) (ro rc : RequestResult)
    (rr rs : Option RequestResult) :
    ∀ (dates : List String) (fs : ArchiveFS) (snaps : List String),
      fs.tar = some (TarContent.valid snaps) →
      (snaps ++ dates).Nodup →
      (run_updates ⟨true, true, true, true⟩ ext_id ro rc rr rs fs
        dates).tar = some (TarContent.valid (snaps ++ dates)) := by
  intro dates
  induction dates with
  | nil =>
    intro fs snaps ht _
    simpa [run_updates] using ht
  | cons d ds ih =>
    intro fs snaps ht hnd
    have hd : d ∉ snaps := by
      intro hmem
      rcases List.nodup_append.mp hnd with ⟨h1, h2, h3⟩
      exact h3 hmem (List.mem_cons_self d ds)
    have hstep := update_extension_valid_step fs snaps d ext_id ro rc rr rs
      ht hd
    have hrw : run_updates ⟨true, true, true, true⟩ ext_id ro rc rr rs fs
        (d :: ds) =
        run_updates ⟨true, true, true, true⟩ ext_id ro rc rr rs
          ((update_extension ⟨true, true, true, true⟩ fs d ext_id ro rc rr
            rs).2) ds := rfl
    rw [hrw, hstep]
    have hnd2 : ((snaps ++ [d]) ++ ds).Nodup := by
      simpa [List.append_assoc] using hnd
    have hres := ih
      { tar := some (TarContent.valid (snaps ++ [d]))
        bak := some (TarContent.valid snaps)
        corrupt_saved := fs.corrupt_saved
        scratch := [] } (snaps ++ [d]) rfl hnd2
    simpa [List.append_assoc] using hres

/-- C4: on a corrupt current tar — with the quarantine move and the repack
succeeding — the update returns normally (the embedding is a total
function: every phase of the source sits in a `try`/`except`), the
exception is recorded on its result (`corrupt_tar`), a
`<id>.corrupt.<date>.tar` quarantine copy appears, and the run still
produces a fresh valid archive holding exactly the new snapshot. -/
theorem update_extension_corruption_resilience (env : ArchiveEnv)
    (fs : ArchiveFS) (date ext_id : String) (ro rc : RequestResult)
    (rr rs : Option RequestResult)
    (hc : fs.tar = some TarContent.corrupt)
    (hm : env.move_corrupt_ok = true)
    (hcr : env.create_tar_ok = true) :
    (update_extension env fs date ext_id ro rc rr rs).1.corrupt_tar
      = true ∧
    (date, TarContent.corrupt) ∈
      (update_extension env fs date ext_id ro rc rr rs).2.corrupt_saved ∧
    (update_extension env fs date ext_id ro rc rr rs).2.tar =
      some (TarContent.valid [date]) := by
  rcases env with ⟨m, rn, c, rm⟩
  simp only at hm hcr
  subst hm
  subst hcr
  cases rn <;> cases rm <;>
    refine ⟨?_, ?_, ?_⟩ <;>
      simp [update_extension, hc, UpdateResult.corrupt_tar]

/-- Witness for C4: starting from a corrupt tar, the new archive holds
exactly the new run directory. -/
theorem update_extension_corruption_resilience_witness :
    (update_extension ⟨true, true, true, true⟩
        ⟨some TarContent.corrupt, none, [], []⟩ "d" "i" ⟨some 200, none⟩
        ⟨some 200, none⟩ none none).2.tar =
      some (TarContent.valid ["d"]) :=
  (update_extension_corruption_resilience ⟨true, true, true, true⟩
      ⟨some TarContent.corrupt, none, [], []⟩ "d" "i" ⟨some 200, none⟩
      ⟨some 200, none⟩ none none rfl rfl rfl).2.2

/-- C7: an update on a valid tar preserves all previously archived
snapshots and appends the new run directory; iterating from an absent tar
over pairwise distinct run dates yields an archive holding exactly those N
run directories — in particular two successive successful updates yield
exactly 2 snapshots, never 1 and never 0. -/
theorem update_extension_accumulates (ext_id : String)
    (ro rc : RequestResult) (rr rs : Option RequestResult) :
    (∀ (fs : ArchiveFS) (snaps : List String) (date : String),
      fs.tar = some (TarContent.valid snaps) → date ∉ snaps →
      (update_extension ⟨true, true, true, true⟩ fs date ext_id ro rc rr
        rs).2.tar = some (TarContent.valid (snaps ++ [date]))) ∧
    (∀ dates : List String, dates.Nodup → dates ≠ [] →
      (run_updates ⟨true, true, true, true⟩ ext_id ro rc rr rs
        ⟨none, none, [], []⟩ dates).tar =
        some (TarContent.valid dates)) := by
  constructor
  · intro fs snaps date ht hd
    rw [update_extension_valid_step fs snaps date ext_id ro rc rr rs ht hd]
  · intro dates hnd hne
    cases dates with
    | nil => exact absurd rfl hne
    | cons d ds =>
      have hrw : run_updates ⟨true, true, true, true⟩ ext_id ro rc rr rs
          ⟨none, none, [], []⟩ (d :: ds) =
          run_updates ⟨true, true, true, true⟩ ext_id ro rc rr rs
            ((update_extension ⟨true, true, true, true⟩
              ⟨none, none, [], []⟩ d ext_id ro rc rr rs).2) ds := rfl
      rw [hrw, update_extension_new_step _ _ _ _ _ _ _ rfl rfl]
      exact run_updates_valid ext_id ro rc rr rs ds _ [d] rfl hnd

/-- Witness for C7: two successive updates yield exactly 2 snapshots. -/
theorem update_extension_accumulates_witness :
    (run_updates ⟨true, true, true, true⟩ "i" ⟨some 200, none⟩
        ⟨some 200, none⟩ none none ⟨none, none, [], []⟩
        ["2021-01-01", "2021-01-02"]).tar =
      some (TarContent.valid ["2021-01-01", "2021-01-02"]) :=
  (update_extension_accumulates "i" ⟨some 200, none⟩ ⟨some 200, none⟩
      none none).2 ["2021-01-01", "2021-01-02"] (by decide) (by decide)

/-- C9: `corrupt_tar` on an update's result is true iff one of the four
archive-lifecycle steps (tar extraction, backup rename, repack,
scratch-directory removal) recorded an exception, and by definition it
coincides with the result's exception field being non-empty. -/
theorem corrupt_tar_iff_lifecycle_exception (env : ArchiveEnv)
    (fs : ArchiveFS) (date ext_id : String) (ro rc : RequestResult)
    (rr rs : Option RequestResult) :
    ((update_extension env fs date ext_id ro rc rr rs).1.corrupt_tar = true
      ↔ (extract_step_fails fs ∨ rename_step_fails env fs ∨
         repack_step_fails env ∨ cleanup_step_fails env)) ∧
    (∀ u : UpdateResult, u.corrupt_tar = u.exception.isSome) := by
  constructor
  · rcases env with ⟨m, rn, c, rm⟩
    rcases fs with ⟨t, b, cs, sc⟩
    cases t with
    | none =>
        cases m <;> cases rn <;> cases c <;> cases rm <;>
          simp [update_extension, UpdateResult.corrupt_tar,
            extract_step_fails, rename_step_fails,
            tar_present_before_rename, repack_step_fails,
            cleanup_step_fails]
    | some tc =>
        cases tc with
        | valid snaps =>
            cases m <;> cases rn <;> cases c <;> cases rm <;>
              simp [update_extension, UpdateResult.corrupt_tar,
                extract_step_fails, rename_step_fails,
                tar_present_before_rename, repack_step_fails,
                cleanup_step_fails]
        | corrupt =>
            cases m <;> cases rn <;> cases c <;> cases rm <;>
              simp [update_extension, UpdateResult.corrupt_tar,
                extract_step_fails, rename_step_fails,
                tar_present_before_rename, repack_step_fails,
                cleanup_step_fails]
  · intro u
    rfl

/-- Witness for C9: a failing repack alone makes `corrupt_tar` true. -/
theorem corrupt_tar_iff_lifecycle_exception_witness :
    (update_extension ⟨true, true, false, true⟩ ⟨none, none, [], []⟩ "d"
        "i" ⟨some 200, none⟩ ⟨some 200, none⟩ none none).1.corrupt_tar
      = true :=
  ((corrupt_tar_iff_lifecycle_exception ⟨true, true, false, true⟩
      ⟨none, none, [], []⟩ "d" "i" ⟨some 200, none⟩ ⟨some 200, none⟩
      none none).1).mpr (Or.inr (Or.inr (Or.inl rfl)))

/-- Whatever `find_lower32` returns has length 32 and is all lowercase. -/
theorem find_lower32_spec : ∀ (l w : List Char), find_lower32 l = some w →
    w.length = 32 ∧ w.all is_lower_alpha = true := by
  intro l
  induction l with
  | nil => intro w h; simp [find_lower32] at h
  | cons c rest ih =>
    intro w h
    rw [find_lower32] at h
    split at h
    · rename_i hcond
      simp only [Bool.and_eq_true, beq_iff_eq] at hcond
      cases h
      exact ⟨hcond.1, hcond.2⟩
    · exact ih w h

/-- If mapping the shard fetch over a URL list succeeded, every URL's
fetch succeeded. -/
theorem mapExcept_ok (f : String → Except String (List String)) :
    ∀ (l : List String) (ys : List (List String)),
      mapExcept f l = Except.ok ys →
      ∀ u ∈ l, ∃ y, f u = Except.ok y := by
  intro l
  induction l with
  | nil => intro ys h u hu; cases hu
  | cons a t ih =>
    intro ys h u hu
    rcases hfa : f a with e | y
    · simp [mapExcept, hfa, Bind.bind, Except.instMonad, Except.bind,
        Functor.map, Except.map] at h
    · rcases hmt : mapExcept f t with e2 | ys2
      · simp [mapExcept, hfa, hmt, Bind.bind, Except.instMonad, Except.bind,
          Functor.map, Except.map] at h
      · rcases List.mem_cons.mp hu with rfl | hu2
        · exact ⟨y, hfa⟩
        · exact ih ys2 hmt u hu2

/-- C8 counterexample: two listing URLs carrying the same id yield a
result list with that id twice — the function returns a list with
duplicates, not a set. -/
theorem crawl_nearly_all_of_ext_ids_not_a_set :
    crawl_nearly_all_of_ext_ids "S" (Except.ok ["S?shard=1&numshards=2"])
      (fun _ => Except.ok
        ["u/abcdefghijklmnopqrstuvwxyzabcdef",
         "u/abcdefghijklmnopqrstuvwxyzabcdef"]) =
      Except.ok [some "abcdefghijklmnopqrstuvwxyzabcdef",
        some "abcdefghijklmnopqrstuvwxyzabcdef"] ∧
    ¬ ([some "abcdefghijklmnopqrstuvwxyzabcdef",
        some "abcdefghijklmnopqrstuvwxyzabcdef"] :
        List (Option String)).Nodup := by
  refine ⟨?_, by decide⟩
  rfl

/-- C8 (amended): `crawl_nearly_all_of_ext_ids` returns a list of id
tokens, one per listing URL of every matching shard in order (duplicates
preserved — not a set); each returned token is 32 characters of `[a-z]`
(hence a 32-character lowercase alphanumeric token); an index fetch
failure propagates uncaught, and a successful result requires every
matching shard fetch to have succeeded. -/
theorem crawl_nearly_all_of_ext_ids_spec (sitemap_url : String)
    (fetch_index : Except String (List String))
    (fetch_shard : String → Except String (List String)) :
    (∀ e, fetch_index = Except.error e →
      crawl_nearly_all_of_ext_ids sitemap_url fetch_index fetch_shard =
        Except.error e) ∧
    (∀ out,
      crawl_nearly_all_of_ext_ids sitemap_url fetch_index fetch_shard =
        Except.ok out →
      (∀ o ∈ out, ∀ s, o = some s →
        s.toList.length = 32 ∧ s.toList.all is_lower_alpha = true) ∧
      (∀ locs, fetch_index = Except.ok locs →
        ∀ u ∈ locs.filter (fun v => is_generic_url sitemap_url v),
          ∃ ls, fetch_shard u = Except.ok ls)) := by
  constructor
  · intro e he
    simp [crawl_nearly_all_of_ext_ids, he, Bind.bind, Except.instMonad,
      Except.bind]
  · intro out hout
    rcases hidx : fetch_index with e | locs
    · rw [hidx] at hout
      simp [crawl_nearly_all_of_ext_ids, Bind.bind, Except.instMonad,
        Except.bind] at hout
    · rw [hidx] at hout
      rcases hsh : mapExcept fetch_shard
          (locs.filter (fun v => is_generic_url sitemap_url v)) with
        e2 | shards
      · simp [crawl_nearly_all_of_ext_ids, hsh, Bind.bind, Except.instMonad,
          Except.bind] at hout
      · have hout2 : out =
            ((shards.foldl (fun x y => x ++ y) []).map
              (fun url => (find_lower32 url.toList).map
                (fun l => String.mk l))) := by
          simp [crawl_nearly_all_of_ext_ids, hsh, Bind.bind,
            Except.instMonad, Except.bind, Pure.pure, Except.pure] at hout
          exact hout.symm
        constructor
        · intro o ho s hs
          rw [hout2] at ho
          rcases List.mem_map.mp ho with ⟨url, hurl, heq⟩
          have hms : (find_lower32 url.toList).map (fun l => String.mk l) =
              some s := heq.trans hs
          rcases Option.map_eq_some'.mp hms with ⟨ls, hfind, hmk⟩
          obtain ⟨hl, ha⟩ := find_lower32_spec url.toList ls hfind
          rw [← hmk]
          exact ⟨hl, ha⟩
        · intro locs2 hl2 u hu
          cases hl2
          exact mapExcept_ok fetch_shard _ shards hsh u hu

/-- Witness for C8 (amended): an index fetch failure propagates. -/
theorem crawl_nearly_all_of_ext_ids_spec_witness :
    crawl_nearly_all_of_ext_ids "S" (Except.error "boom")
      (fun _ => Except.ok []) = Except.error "boom" :=
  (crawl_nearly_all_of_ext_ids_spec "S" (Except.error "boom")
      (fun _ => Except.ok [])).1 "boom" rfl

/-- Witness for C10 at a concrete result: support fetched and 503, overview
also 503 yet irrelevant. -/
theorem raised_google_ddos_characterisation_witness :
    UpdateResult.raised_google_ddos
      { id := "a", new := false, exception := none,
        res_overview := ⟨some 503, none⟩, res_crx := ⟨some 200, none⟩,
        res_reviews := none,
        res_support := some ⟨some 503, none⟩ } = true :=
  ((raised_google_ddos_characterisation
    { id := "a", new := false, exception := none,
      res_overview := ⟨some 503, none⟩, res_crx := ⟨some 200, none⟩,
      res_reviews := none, res_support := some ⟨some 503, none⟩ }
    ⟨some 200, none⟩ ⟨some 200, none⟩).1.mpr
    (Or.inr ⟨⟨some 503, none⟩, rfl, rfl, rfl⟩))
